import Mathlib

/-!
Shallow embedding of `src/apps/openmw/mwsound/openal_output.cpp`
(namespace `MWSound`): the OpenAL streaming feeder (`OpenAL_SoundStream`),
the background scheduler (`OpenAL_Output::StreamThread`) and the
voice-pool / active-handle operations of `OpenAL_Output`.

Device state that the C++ code queries through OpenAL calls
(`AL_SOURCE_STATE`, `AL_BUFFERS_QUEUED`, `AL_BUFFERS_PROCESSED`,
`AL_SAMPLE_OFFSET`) is made explicit: the per-source play state and the
list of queued buffers live in `StreamState`, and quantities the device
reports asynchronously (number of processed buffers, sample offset) are
inputs to the functions that read them.
-/

namespace MWSound

/-- Sample encodings, from `SampleType` in the decoder interface. -/
inductive SampleType where
  | uint8
  | int16
  | float32
deriving DecidableEq, Repr

/-- Channel layouts, from `ChannelConfig` in the decoder interface. -/
inductive ChannelConfig where
  | mono
  | stereo
  | quad
  | fivePoint1
  | sevenPoint1
deriving DecidableEq, Repr

/-- OpenAL source play state (`AL_SOURCE_STATE` values). -/
inductive PlayState where
  | initial
  | playing
  | paused
  | stopped
deriving DecidableEq, Repr

/-- Loudness values per second of audio (`sLoudnessFPS`, line 29). -/
def sLoudnessFPS : Nat := 20

namespace OpenAL_SoundStream

/-- Ring capacity (`sNumBuffers`, line 162). -/
def sNumBuffers : Nat := 6

/-- Buffer length in seconds (`sBufferLength = 0.125f`, line 199),
as an exact rational: 0.125 is a power of two, hence exact in `float`. -/
def sBufferLength : ℚ := 0.125

/-- Silence value selected in the constructor (lines 328-333).  The C++
`switch` has no `break` statements, so control falls through: the
`UInt8` case assigns `0x80` and then falls into the `Int16` and
`Float32` cases, each of which overwrites `mSilence` with `0x00`. -/
def silenceFor (t : SampleType) : Int :=
  match t with
  | .uint8 =>
    let mSilence : Int := 0x80
    let mSilence : Int := 0x00
    let mSilence : Int := 0x00
    mSilence
  | .int16 =>
    let mSilence : Int := 0x00
    let mSilence : Int := 0x00
    mSilence
  | .float32 =>
    let mSilence : Int := 0x00
    mSilence

/-- Per-buffer byte size from the constructor (lines 336-337):
`mBufferSize = static_cast<ALuint>(sBufferLength*srate); mBufferSize *= mFrameSize;`.
`static_cast<ALuint>` of a nonnegative `float` truncates toward zero,
i.e. takes the floor; the product `0.125f * srate` is exact for every
representable sample rate, so the computation is the floor of the exact
rational `0.125 * srate`. -/
def mkBufferSize (srate frameSize : Nat) : Nat :=
  (Int.toNat ⌊sBufferLength * (srate : ℚ)⌋) * frameSize

/-- Per-buffer byte size as the specification words it:
`round(bufferDurationSeconds × sampleRate) × frameSize` with round to
the nearest integer (halves rounding up, as in the spec's example
44100 ↦ 5513).  Written from the spec for comparison with
`mkBufferSize`, which is written from the source. -/
def specBufferSize (srate frameSize : Nat) : Nat :=
  (Int.toNat ⌊sBufferLength * (srate : ℚ) + 1/2⌋) * frameSize

end OpenAL_SoundStream

/-- The pull decoder as the feeder sees it: a stream of remaining PCM
bytes.  `read(buf, n)` delivers `min n remaining` bytes and advances. -/
structure Decoder where
  data : List Int
deriving DecidableEq, Repr

/-- One `mDecoder->read(&data[0], data.size())` call: returns the bytes
delivered (`got` of them) and the advanced decoder. -/
def Decoder.read (d : Decoder) (n : Nat) : List Int × Decoder :=
  (d.data.take n, ⟨d.data.drop n⟩)

/-- Constants fixed at feeder construction (lines 313-346):
`mSampleRate`, `mFrameSize`, `mBufferSize`, `mSilence`. -/
structure StreamConfig where
  sampleRate : Nat
  frameSize : Nat
  bufferSize : Nat
  silence : Int
deriving DecidableEq, Repr

/-- The constructor's derivation of the stream constants (lines 324-337):
`mSampleRate = srate`, `mSilence` by the fall-through switch,
`mFrameSize = framesToBytes(1, chans, type)` (kept abstract as the
`frameSize` argument), `mBufferSize` by truncation. -/
def mkStreamConfig (srate frameSize : Nat) (t : SampleType) : StreamConfig :=
  { sampleRate := srate
    frameSize := frameSize
    bufferSize := OpenAL_SoundStream.mkBufferSize srate frameSize
    silence := OpenAL_SoundStream.silenceFor t }

/-- Mutable state of one `OpenAL_SoundStream` together with the device
state of its source: `queue` is the source's queued-buffer list (front =
oldest, length = `AL_BUFFERS_QUEUED`), `playState` its
`AL_SOURCE_STATE`, `finished` is `mIsFinished`, `curBufIdx` is
`mCurrentBufIdx`, `source` is `mSource`. -/
structure StreamState where
  source : Nat
  queue : List (List Int)
  playState : PlayState
  finished : Bool
  decoder : Decoder
  curBufIdx : Nat
deriving DecidableEq, Repr

namespace OpenAL_SoundStream

/-- `OpenAL_SoundStream::isPlaying` (lines 355-365): true when the
source is playing or paused, otherwise `!mIsFinished`. -/
def isPlaying (s : StreamState) : Bool :=
  if s.playState = .playing ∨ s.playState = .paused then true
  else !s.finished

/-- One iteration of the refill `for` loop body (lines 450-464): read up
to `mBufferSize` bytes; a short read sets `mIsFinished` and pads the
tail of the buffer with `mSilence` (the `memset`); a nonempty read is
uploaded and queued on the source and the ring cursor advances. -/
def refillBody (cfg : StreamConfig) (s : StreamState) : StreamState :=
  let r := s.decoder.read cfg.bufferSize
  let got := r.1
  let s1 : StreamState := { s with decoder := r.2 }
  let s2 : StreamState :=
    if got.length < cfg.bufferSize then { s1 with finished := true } else s1
  let data := got ++ List.replicate (cfg.bufferSize - got.length) cfg.silence
  if got.length > 0 then
    { s2 with
      queue := s2.queue ++ [data]
      curBufIdx := (s2.curBufIdx + 1) % sNumBuffers }
  else s2

/-- The refill `for` loop (lines 450-465): runs while `!mIsFinished`
and the `queued` counter is below `sNumBuffers`, incrementing `queued`
each iteration (note the counter is incremented even when a zero-length
short read queues nothing). -/
def refillLoop (cfg : StreamConfig) (s : StreamState) (queued : Nat) :
    StreamState × Nat :=
  if h : s.finished = false ∧ queued < sNumBuffers then
    refillLoop cfg (refillBody cfg s) (queued + 1)
  else (s, queued)
termination_by sNumBuffers - queued
decreasing_by omega

/-- `OpenAL_SoundStream::refillQueue` (lines 434-469): unqueue the
`processed` buffers the device has finished with, then refill free slots
while not finished; returns the final `queued` counter. -/
def refillQueue (cfg : StreamConfig) (s : StreamState) (processed : Nat) :
    StreamState × Nat :=
  let s0 : StreamState := { s with queue := s.queue.drop processed }
  refillLoop cfg s0 s0.queue.length

/-- `OpenAL_SoundStream::process` (lines 413-432): refill; if the
returned count is positive and the source is neither playing nor paused,
refill again and start the source.  A decoder exception anywhere in the
sequence is caught and turns into `mIsFinished = true` (`decodeFails`
models the decoder throwing).  Returns `!mIsFinished`. -/
def process (cfg : StreamConfig) (s : StreamState) (processed : Nat)
    (decodeFails : Bool) : StreamState × Bool :=
  if decodeFails then
    let s1 : StreamState := { s with finished := true }
    (s1, !s1.finished)
  else
    let r1 := refillQueue cfg s processed
    let s1 := r1.1
    let s2 : StreamState :=
      if r1.2 > 0 ∧ ¬(s1.playState = .playing ∨ s1.playState = .paused) then
        let r2 := refillQueue cfg s1 0
        { r2.1 with playState := .playing }
      else s1
    (s2, !s2.finished)

/-- `OpenAL_SoundStream::getStreamDelay` (lines 367-385): while playing
or paused, `(mBufferSize/mFrameSize*queued - offset) / mSampleRate`
(integer division of the byte size by the frame size, as in the C++);
otherwise `0.0`.  `offset` is the device's `AL_SAMPLE_OFFSET`. -/
def getStreamDelay (cfg : StreamConfig) (s : StreamState) (offset : Int) : ℚ :=
  if s.playState = .playing ∨ s.playState = .paused then
    let inqueue : Int := (cfg.bufferSize / cfg.frameSize : Nat) * s.queue.length - offset
    (inqueue : ℚ) / (cfg.sampleRate : ℚ)
  else 0

/-- `OpenAL_SoundStream::getStreamOffset` (lines 387-411): while playing
or paused, `(decoderSampleOffset - inqueue) / mSampleRate`; otherwise
`decoderSampleOffset / mSampleRate`.  `offset` is `AL_SAMPLE_OFFSET` and
`decOffset` is `mDecoder->getSampleOffset()`. -/
def getStreamOffset (cfg : StreamConfig) (s : StreamState)
    (offset : Int) (decOffset : Int) : ℚ :=
  if s.playState = .playing ∨ s.playState = .paused then
    let inqueue : Int := (cfg.bufferSize / cfg.frameSize : Nat) * s.queue.length - offset
    ((decOffset - inqueue : Int) : ℚ) / (cfg.sampleRate : ℚ)
  else (decOffset : ℚ) / (cfg.sampleRate : ℚ)

end OpenAL_SoundStream

/-- A feeder as the scheduler sees it: the pointer value of the
`OpenAL_SoundStream*` (its identity in `StreamVec`), together with the
stream constants and mutable state it owns. -/
structure Feeder where
  ptr : Nat
  cfg : StreamConfig
  state : StreamState
deriving DecidableEq, Repr

/-- A queued loudness job (`DecoderLoudnessVec` entry, line 209): the
decoder, modelled by what its `getInfo`/`readAll` will do — whether
each throws, the stream info, and the bytes `readAll` stores into
`data` before returning or throwing — and the `Sound_Loudness*` sink. -/
structure LoudnessJob where
  getInfoFails : Bool
  srate : Nat
  chans : ChannelConfig
  stype : SampleType
  readAllFails : Bool
  dataRead : List Int
  sink : Nat
deriving DecidableEq, Repr

/-- One `analyzeLoudness` invocation (line 266) with its arguments. -/
structure AnalyzerCall where
  sink : Nat
  data : List Int
  srate : Nat
  chans : ChannelConfig
  stype : SampleType
  fps : Nat
deriving DecidableEq, Repr

namespace StreamThread

open OpenAL_SoundStream

/-- The loudness part of a scheduler iteration (lines 254-266): local
defaults `chans = Mono`, `type = Int16`, `srate = 48000`, empty `data`;
`try { getInfo; readAll } catch { log }`; then `analyzeLoudness` is
invoked unconditionally with whatever the try block produced.  If
`getInfo` throws, `readAll` never runs and the defaults survive; if
`readAll` throws, `data` holds the bytes read before the throw. -/
def runLoudnessJob (j : LoudnessJob) : AnalyzerCall :=
  if j.getInfoFails then
    { sink := j.sink, data := [], srate := 48000, chans := .mono
      stype := .int16, fps := sLoudnessFPS }
  else
    { sink := j.sink, data := j.dataRead, srate := j.srate, chans := j.chans
      stype := j.stype, fps := sLoudnessFPS }

/-- The feeder pass of one scheduler iteration (lines 235-242): call
`process()` on every registered stream in order, erasing those that
return false.  `ins` supplies, per stream, the device's processed-buffer
count and whether the decoder throws during this `process()` call. -/
def streamPass : List Feeder → List (Nat × Bool) → List Feeder
  | [], _ => []
  | f :: rest, ins =>
    let i := ins.headD (0, false)
    let r := process f.cfg f.state i.1 i.2
    if r.2 = false then streamPass rest ins.tail
    else { f with state := r.1 } :: streamPass rest ins.tail

/-- Scheduler state: the registered feeders (`mStreams`) and the
loudness-job FIFO (`mDecoderLoudness`). -/
structure SchedState where
  mStreams : List Feeder
  mDecoderLoudness : List LoudnessJob
deriving DecidableEq, Repr

/-- One iteration of the scheduler's `while` body
(`StreamThread::operator()`, lines 233-270): the feeder pass, then, if
the job FIFO is nonempty, the front job is erased and run (and the
`continue` skips the wait); otherwise the thread waits on the condition
variable.  Returns the new state and the analyzer invocation, if any. -/
def schedIter (st : SchedState) (ins : List (Nat × Bool)) :
    SchedState × Option AnalyzerCall :=
  let streams := streamPass st.mStreams ins
  match st.mDecoderLoudness with
  | [] => ({ mStreams := streams, mDecoderLoudness := [] }, none)
  | j :: rest =>
    ({ mStreams := streams, mDecoderLoudness := rest }, some (runLoudnessJob j))

/-- `n` consecutive iterations of the scheduler loop, collecting the
analyzer invocations in order.  `inss` supplies each iteration's
per-stream device inputs. -/
def schedRun : Nat → SchedState → List (List (Nat × Bool)) →
    SchedState × List AnalyzerCall
  | 0, st, _ => (st, [])
  | Nat.succ n, st, inss =>
    let r := schedIter st (inss.headD [])
    let rr := schedRun n r.1 inss.tail
    (rr.1, r.2.toList ++ rr.2)

/-- `StreamThread::add(OpenAL_SoundStream*)` (lines 274-283): append the
stream only when no entry with the same pointer is present. -/
def add (l : List Feeder) (f : Feeder) : List Feeder :=
  if l.any (fun g => g.ptr == f.ptr) then l else l ++ [f]

/-- `StreamThread::remove(OpenAL_SoundStream*)` (lines 285-290): erase
the entry with the given pointer, if present. -/
def remove (l : List Feeder) (p : Nat) : List Feeder :=
  l.eraseP (fun g => g.ptr == p)

end StreamThread

/-- State of the `OpenAL_Output` pieces the playback requests touch: the
free-voice list (`mFreeSources`, front is lent next), the live handle
registries (`mActiveSounds` / `mActiveStreams`, by handle identity),
and the scheduler's feeder set (`StreamThread::mStreams`). -/
structure OutputState where
  mFreeSources : List Nat
  mActiveSounds : List Nat
  mActiveStreams : List Nat
  mThreadStreams : List Feeder
deriving DecidableEq, Repr

/-- Failure surfaced by a playback request: `fail("No free sources")`
when the pool is empty, or an OpenAL error reported by `throwALerror`
(or thrown by feeder construction) inside the `try` block. -/
inductive PlayFailure where
  | noFreeSources
  | deviceError
deriving DecidableEq, Repr

/-- The fresh `OpenAL_SoundStream` built by the constructor (lines
313-346): bound to `src`, empty queue, cursor 0, not finished. -/
def OpenAL_SoundStream.construct (src : Nat) (d : Decoder) : StreamState :=
  { source := src, queue := [], playState := .initial, finished := false
    decoder := d, curBufIdx := 0 }

namespace OpenAL_Output

/-- `OpenAL_Output::playSound` (lines 651-697): fail if no free source;
otherwise pop the front source and run the `try` block (`alFails` models
any OpenAL call in it throwing).  The `catch` pushes the source back
onto the free list and rethrows; on success the new handle (identity
`newId`) joins `mActiveSounds`. -/
def playSound (st : OutputState) (newId : Nat) (alFails : Bool) :
    OutputState × Except PlayFailure Nat :=
  match st.mFreeSources with
  | [] => (st, .error .noFreeSources)
  | source :: rest =>
    if alFails then
      ({ st with mFreeSources := rest ++ [source] }, .error .deviceError)
    else
      ({ st with
          mFreeSources := rest
          mActiveSounds := st.mActiveSounds ++ [newId] }, .ok source)

/-- `OpenAL_Output::playSound3D` (lines 699-748): identical pool and
error flow to `playSound`, with 3D source parameters in the `try`. -/
def playSound3D (st : OutputState) (newId : Nat) (alFails : Bool) :
    OutputState × Except PlayFailure Nat :=
  match st.mFreeSources with
  | [] => (st, .error .noFreeSources)
  | source :: rest =>
    if alFails then
      ({ st with mFreeSources := rest ++ [source] }, .error .deviceError)
    else
      ({ st with
          mFreeSources := rest
          mActiveSounds := st.mActiveSounds ++ [newId] }, .ok source)

/-- `OpenAL_Output::streamSound` (lines 806-854): fail if no free
source; otherwise pop the front source and run the `try` block.
`setupFails` models an exception from the OpenAL setup calls or from
the `OpenAL_SoundStream` constructor — in either case the local
`stream` pointer is still null, so the `catch`'s `remove(stream)` and
`delete stream` are no-ops and only the source returns to the pool.  On
success the feeder (pointer `fptr`) is registered with the scheduler and
the new handle joins `mActiveStreams`. -/
def streamSound (st : OutputState) (newId fptr : Nat) (cfg : StreamConfig)
    (d : Decoder) (setupFails : Bool) : OutputState × Except PlayFailure Nat :=
  match st.mFreeSources with
  | [] => (st, .error .noFreeSources)
  | source :: rest =>
    if setupFails then
      ({ st with mFreeSources := rest ++ [source] }, .error .deviceError)
    else
      let f : Feeder :=
        { ptr := fptr, cfg := cfg, state := OpenAL_SoundStream.construct source d }
      ({ st with
          mFreeSources := rest
          mThreadStreams := StreamThread.add st.mThreadStreams f
          mActiveStreams := st.mActiveStreams ++ [newId] }, .ok fptr)

/-- `OpenAL_Output::streamSound3D` (lines 856-906): identical pool,
registration and error flow to `streamSound`. -/
def streamSound3D (st : OutputState) (newId fptr : Nat) (cfg : StreamConfig)
    (d : Decoder) (setupFails : Bool) : OutputState × Except PlayFailure Nat :=
  match st.mFreeSources with
  | [] => (st, .error .noFreeSources)
  | source :: rest =>
    if setupFails then
      ({ st with mFreeSources := rest ++ [source] }, .error .deviceError)
    else
      let f : Feeder :=
        { ptr := fptr, cfg := cfg, state := OpenAL_SoundStream.construct source d }
      ({ st with
          mFreeSources := rest
          mThreadStreams := StreamThread.add st.mThreadStreams f
          mActiveStreams := st.mActiveStreams ++ [newId] }, .ok fptr)

end OpenAL_Output

/-- A caller-visible sound handle (`MWBase::SoundPtr`): its identity in
`mActiveSounds` and its `mHandle` (the source id, null once stopped). -/
structure SoundRef where
  id : Nat
  mHandle : Option Nat
deriving DecidableEq, Repr

/-- A caller-visible stream handle (`MWBase::SoundStreamPtr`): its
identity in `mActiveStreams` and its `mHandle` (the
`OpenAL_SoundStream*`, null once stopped). -/
structure StreamRef where
  id : Nat
  mHandle : Option Feeder
deriving DecidableEq, Repr

namespace OpenAL_Output

/-- `OpenAL_Output::stopSound` (lines 750-763): a null handle returns
immediately; otherwise the handle is nulled, the source stopped and
returned to the pool, and the handle erased from `mActiveSounds`. -/
def stopSound (st : OutputState) (snd : SoundRef) : OutputState × SoundRef :=
  match snd.mHandle with
  | none => (st, snd)
  | some source =>
    ({ st with
        mFreeSources := st.mFreeSources ++ [source]
        mActiveSounds := st.mActiveSounds.erase snd.id },
     { snd with mHandle := none })

/-- `OpenAL_Output::isSoundPlaying` (lines 765-776): false on a null
handle; otherwise whether the source state is playing or paused. -/
def isSoundPlaying (snd : SoundRef) (srcState : PlayState) : Bool :=
  match snd.mHandle with
  | none => false
  | some _ => decide (srcState = .playing ∨ srcState = .paused)

/-- `OpenAL_Output::stopStream` (lines 908-925): a null handle returns
immediately; otherwise the handle is nulled, the feeder removed from
the scheduler, the source stopped and returned to the pool, and the
handle erased from `mActiveStreams`. -/
def stopStream (st : OutputState) (strm : StreamRef) : OutputState × StreamRef :=
  match strm.mHandle with
  | none => (st, strm)
  | some f =>
    ({ st with
        mThreadStreams := StreamThread.remove st.mThreadStreams f.ptr
        mFreeSources := st.mFreeSources ++ [f.state.source]
        mActiveStreams := st.mActiveStreams.erase strm.id },
     { strm with mHandle := none })

/-- `OpenAL_Output::getStreamDelay` (lines 927-933): `0.0` on a null
handle, otherwise the stream's delay. -/
def getStreamDelay (strm : StreamRef) (offset : Int) : ℚ :=
  match strm.mHandle with
  | none => 0
  | some f => OpenAL_SoundStream.getStreamDelay f.cfg f.state offset

/-- `OpenAL_Output::getStreamOffset` (lines 935-942): `0.0` on a null
handle, otherwise the stream's offset. -/
def getStreamOffset (strm : StreamRef) (offset decOffset : Int) : ℚ :=
  match strm.mHandle with
  | none => 0
  | some f => OpenAL_SoundStream.getStreamOffset f.cfg f.state offset decOffset

/-- `OpenAL_Output::isStreamPlaying` (lines 944-951): false on a null
handle, otherwise the stream's `isPlaying()`. -/
def isStreamPlaying (strm : StreamRef) : Bool :=
  match strm.mHandle with
  | none => false
  | some f => OpenAL_SoundStream.isPlaying f.state

end OpenAL_Output

/-- Calls the scheduler and the caller can direct at one feeder:
`refillQueue(processed)` or `process(processed, decodeFails)`. -/
inductive FeederCall where
  | refill (processed : Nat)
  | advance (processed : Nat) (decodeFails : Bool)
deriving DecidableEq, Repr

/-- Apply one call to a feeder's state. -/
def applyCall (cfg : StreamConfig) (s : StreamState) : FeederCall → StreamState
  | .refill p => (OpenAL_SoundStream.refillQueue cfg s p).1
  | .advance p df => (OpenAL_SoundStream.process cfg s p df).1

/-- Apply a sequence of calls, left to right. -/
def applyCalls (cfg : StreamConfig) : StreamState → List FeederCall → StreamState
  | s, [] => s
  | s, c :: cs => applyCalls cfg (applyCall cfg s c) cs

/-! Concrete instances used by counterexamples and witnesses. -/

/-- Constants of a feeder over an 8 Hz mono stream: one-byte frames,
one-byte buffers. -/
def c1Cfg : StreamConfig :=
  { sampleRate := 8, frameSize := 1, bufferSize := 1, silence := 0 }

/-- A feeder that has decoded to the end (`finished`) while its source
is still playing one queued buffer. -/
def c1State : StreamState :=
  { source := 0, queue := [[0]], playState := .playing, finished := true
    decoder := ⟨[]⟩, curBufIdx := 1 }

/-- Constants of a feeder with four-byte buffers. -/
def c3Cfg : StreamConfig :=
  { sampleRate := 32, frameSize := 1, bufferSize := 4, silence := 0 }

/-- A fresh feeder whose decoder holds two bytes — fewer than one
buffer, so the first read is short. -/
def c3State : StreamState :=
  { source := 0, queue := [], playState := .initial, finished := false
    decoder := ⟨[1, 2]⟩, curBufIdx := 0 }

/-- Constants of the feeder used by the invariant witness. -/
def c4Cfg : StreamConfig :=
  { sampleRate := 32, frameSize := 1, bufferSize := 4, silence := 0 }

/-- A finished feeder with one queued buffer and two bytes left
unreachable in the decoder. -/
def c4State : StreamState :=
  { source := 0, queue := [[5, 6, 7, 8]], playState := .playing, finished := true
    decoder := ⟨[9, 10]⟩, curBufIdx := 1 }

/-- A loudness job whose decoder reports 44100 Hz stereo 16-bit, reads
two bytes into `data`, then throws from `readAll`. -/
def c6Job : LoudnessJob :=
  { getInfoFails := false, srate := 44100, chans := .stereo, stype := .int16
    readAllFails := true, dataRead := [3, 4], sink := 7 }

/-- A second pending job behind the failing one. -/
def c6Job2 : LoudnessJob :=
  { getInfoFails := false, srate := 48000, chans := .mono, stype := .uint8
    readAllFails := false, dataRead := [1], sink := 8 }

/-- Scheduler state holding no feeders and the two jobs above. -/
def c6State : StreamThread.SchedState :=
  { mStreams := [], mDecoderLoudness := [c6Job, c6Job2] }

/-- Output state with no free voices. -/
def c7Empty : OutputState :=
  { mFreeSources := [], mActiveSounds := [40], mActiveStreams := [41]
    mThreadStreams := [] }

/-- Output state with two free voices. -/
def c7Two : OutputState :=
  { mFreeSources := [1, 2], mActiveSounds := [40], mActiveStreams := [41]
    mThreadStreams := [] }

/-- A feeder registered with the scheduler, for the idempotence witness. -/
def c9F1 : Feeder :=
  { ptr := 11, cfg := c1Cfg
    state := OpenAL_SoundStream.construct 1 ⟨[1]⟩ }

/-- A distinct feeder (different pointer) to register twice. -/
def c9F2 : Feeder :=
  { ptr := 12, cfg := c1Cfg
    state := OpenAL_SoundStream.construct 2 ⟨[2]⟩ }

/-- Output state used by the null-handle witness. -/
def c10St : OutputState :=
  { mFreeSources := [3], mActiveSounds := [50], mActiveStreams := [51]
    mThreadStreams := [] }

/-- An already-stopped sound handle (`mHandle == 0`). -/
def c10Snd : SoundRef := { id := 50, mHandle := none }

/-- An already-stopped stream handle (`mHandle == 0`). -/
def c10Strm : StreamRef := { id := 51, mHandle := none }

/-!
Theorems.  Helper lemmas come first; each claim's theorem carries a doc
comment naming the claim.
-/

open OpenAL_SoundStream

/-- Every branch of the fall-through switch ends in the `Float32`
assignment, so the selected silence value is always zero. -/
theorem silenceFor_eq_zero (t : SampleType) : silenceFor t = 0 := by
  cases t <;> rfl

/-- The truncated buffer sample count is exact natural division by 8. -/
theorem mkBufferSize_eq (srate fs : Nat) :
    mkBufferSize srate fs = srate / 8 * fs := by
  unfold mkBufferSize
  congr 1
  rw [show sBufferLength * (srate : ℚ) = (srate : ℚ) / 8 by
      rw [show sBufferLength = 1 / 8 by norm_num [sBufferLength]]; ring]
  rw [Int.floor_toNat]
  exact Nat.floor_div_eq_div srate 8

/-- The spec's rounded buffer sample count at 44100 Hz is 5513. -/
theorem specBufferSize_44100 : specBufferSize 44100 1 = 5513 := by
  unfold specBufferSize
  rw [show sBufferLength * ((44100 : Nat) : ℚ) + 1 / 2 = ((5513 : Nat) : ℚ) by
      norm_num [sBufferLength]]
  rw [Int.floor_natCast]
  rfl

/-- Claim C2, counterexample: the source truncates `0.125 × sampleRate`
(`static_cast<ALuint>`), so at 44100 Hz a buffer holds 5512 samples;
the spec's round-to-nearest would give 5513. -/
theorem c2_counterexample :
    mkBufferSize 44100 1 = 5512 ∧ specBufferSize 44100 1 = 5513 ∧
    mkBufferSize 44100 1 ≠ specBufferSize 44100 1 := by
  refine ⟨by rw [mkBufferSize_eq], specBufferSize_44100, ?_⟩
  rw [mkBufferSize_eq, specBufferSize_44100]
  decide

/-- Claim C2, amended: the per-buffer byte size established at feeder
construction equals `floor(0.125 × sampleRate) × frameSize` — the cast
truncates rather than rounds, so 44100 Hz gives 5512 samples per
buffer, not 5513. -/
theorem c2_buffer_size_truncates :
    ∀ (srate fs : Nat) (t : SampleType),
      (mkStreamConfig srate fs t).bufferSize = srate / 8 * fs := by
  intro srate fs t
  exact mkBufferSize_eq srate fs

/-- Claim C8: for every sample encoding the feeder supports, the silence
fill value computed at construction is zero — the selection switch falls
through its cases — so unsigned 8-bit streams are padded with 0x00,
not the conventional mid-point 0x80. -/
theorem c8_silence_fallthrough :
    ∀ (srate fs : Nat) (t : SampleType),
      (mkStreamConfig srate fs t).silence = 0 ∧
      (mkStreamConfig srate fs SampleType.uint8).silence ≠ 0x80 := by
  intro srate fs t
  refine ⟨silenceFor_eq_zero t, ?_⟩
  rw [show (mkStreamConfig srate fs SampleType.uint8).silence = silenceFor .uint8 from rfl]
  decide

/-- Claim C1, amended: `process()` reports the feeder alive exactly when
the `finished` flag is still false after the call; unlike `isPlaying()`,
its return value ignores the source's play state, so a finished feeder
is retired by the scheduler even while the source is still playing or
paused with queued audio. -/
theorem c1_process_alive :
    ∀ (cfg : StreamConfig) (s : StreamState) (p : Nat) (df : Bool),
      (process cfg s p df).2 = !(process cfg s p df).1.finished := by
  intro cfg s p df
  cases df <;> rfl

/-- Claim C1, counterexample: a feeder whose decoder has finished but
whose source is still playing a queued buffer.  `process()` returns
false (retiring the feeder), although the voice reports playing —
`isPlaying()` is true — so the return value is not
`playing/paused OR !finished`. -/
theorem c1_counterexample :
    (process c1Cfg c1State 0 false).2 = false ∧
    isPlaying (process c1Cfg c1State 0 false).1 = true ∧
    (process c1Cfg c1State 0 false).2 ≠
      isPlaying (process c1Cfg c1State 0 false).1 := by
  have hp : process c1Cfg c1State 0 false = (c1State, false) := by
    simp [process, refillQueue, refillLoop, c1State]
  rw [hp]
  refine ⟨rfl, ?_, ?_⟩ <;> simp [isPlaying, c1State]

/-- Claim C9: `StreamThread::add` only appends a stream whose pointer is
not yet present, so registration is idempotent and a duplicate-free
feeder set stays duplicate-free. -/
theorem c9_register_idempotent :
    ∀ (l : List Feeder) (f : Feeder),
      StreamThread.add (StreamThread.add l f) f = StreamThread.add l f ∧
      ((l.map Feeder.ptr).Nodup →
        ((StreamThread.add l f).map Feeder.ptr).Nodup) := by
  intro l f
  unfold StreamThread.add
  by_cases h : l.any (fun g => g.ptr == f.ptr)
  · simp [h]
  · rw [if_neg h]
    have hmem : ((l ++ [f]).any (fun g => g.ptr == f.ptr)) = true := by
      simp [List.any_append]
    rw [if_pos hmem]
    refine ⟨rfl, ?_⟩
    intro hn
    simp only [List.map_append, List.map_cons, List.map_nil]
    rw [List.nodup_append]
    refine ⟨hn, List.nodup_singleton _, ?_⟩
    intro a ha hb
    simp only [List.mem_singleton] at hb
    subst hb
    obtain ⟨g, hg, hgp⟩ := List.mem_map.mp ha
    exact h (List.any_eq_true.mpr ⟨g, hg, by simp [hgp]⟩)

/-- Claim C9, witness: registering a concrete feeder twice (with another
feeder already present) equals registering it once, and the pointer set
stays duplicate-free. -/
theorem c9_witness :
    StreamThread.add (StreamThread.add [c9F1] c9F2) c9F2 =
      StreamThread.add [c9F1] c9F2 ∧
    (([c9F1].map Feeder.ptr).Nodup →
      ((StreamThread.add [c9F1] c9F2).map Feeder.ptr).Nodup) :=
  c9_register_idempotent [c9F1] c9F2

/-- Over `n` scheduler iterations the job FIFO loses exactly its first
`n` entries, and the analyzer invocations are those entries in order. -/
theorem schedRun_spec :
    ∀ (n : Nat) (st : StreamThread.SchedState) (inss : List (List (Nat × Bool))),
      (StreamThread.schedRun n st inss).1.mDecoderLoudness =
        st.mDecoderLoudness.drop n ∧
      (StreamThread.schedRun n st inss).2 =
        (st.mDecoderLoudness.take n).map StreamThread.runLoudnessJob := by
  intro n
  induction n with
  | zero =>
    intro st inss
    exact ⟨by simp [StreamThread.schedRun], by simp [StreamThread.schedRun]⟩
  | succ n ih =>
    intro st inss
    obtain ⟨streams, jobs⟩ := st
    cases jobs with
    | nil =>
      have h := ih ⟨StreamThread.streamPass streams (inss.headD []), []⟩ inss.tail
      refine ⟨?_, ?_⟩
      · simpa [StreamThread.schedRun, StreamThread.schedIter] using h.1
      · simpa [StreamThread.schedRun, StreamThread.schedIter] using h.2
    | cons j rest =>
      have h := ih ⟨StreamThread.streamPass streams (inss.headD []), rest⟩ inss.tail
      refine ⟨?_, ?_⟩
      · simpa [StreamThread.schedRun, StreamThread.schedIter] using h.1
      · simpa [StreamThread.schedRun, StreamThread.schedIter] using h.2

/-- Claim C5: each scheduler iteration removes at most one loudness job
— always the front one — so `n` iterations that enqueue nothing drain
exactly `min n queueSize` jobs, in FIFO order. -/
theorem c5_scheduler_fifo :
    ∀ (n : Nat) (st : StreamThread.SchedState) (inss : List (List (Nat × Bool))),
      (StreamThread.schedRun n st inss).2 =
        (st.mDecoderLoudness.take n).map StreamThread.runLoudnessJob ∧
      (StreamThread.schedRun n st inss).1.mDecoderLoudness =
        st.mDecoderLoudness.drop n ∧
      (StreamThread.schedRun n st inss).2.length =
        min n st.mDecoderLoudness.length := by
  intro n st inss
  have h := schedRun_spec n st inss
  refine ⟨h.2, h.1, ?_⟩
  rw [h.2, List.length_map, List.length_take]

/-- Claim C6: a loudness job whose decoder throws is still popped from
the front of the FIFO and stays removed; the exception is absorbed by
the iteration (`schedIter` is total), the analyzer is invoked anyway on
whatever data was obtained — the partial bytes when `readAll` threw,
the empty default when `getInfo` threw — and later iterations continue
draining the remaining jobs. -/
theorem c6_loudness_job_failure :
    ∀ (st : StreamThread.SchedState) (j : LoudnessJob) (rest : List LoudnessJob)
      (ins : List (Nat × Bool)),
      st.mDecoderLoudness = j :: rest →
      j.readAllFails = true →
      ((StreamThread.schedIter st ins).1.mDecoderLoudness = rest ∧
       (StreamThread.schedIter st ins).2 = some (StreamThread.runLoudnessJob j) ∧
       (j.getInfoFails = false →
         (StreamThread.runLoudnessJob j).data = j.dataRead ∧
         (StreamThread.runLoudnessJob j).srate = j.srate) ∧
       (j.getInfoFails = true → (StreamThread.runLoudnessJob j).data = []) ∧
       (∀ (n : Nat) (inss : List (List (Nat × Bool))),
         (StreamThread.schedRun n
           (StreamThread.schedIter st ins).1 inss).1.mDecoderLoudness =
           rest.drop n)) := by
  intro st j rest ins hjobs hfail
  obtain ⟨streams, jobs⟩ := st
  simp only at hjobs
  subst hjobs
  refine ⟨rfl, rfl, ?_, ?_, ?_⟩
  · intro hinfo
    unfold StreamThread.runLoudnessJob
    rw [if_neg (by simp [hinfo])]
    exact ⟨rfl, rfl⟩
  · intro hinfo
    unfold StreamThread.runLoudnessJob
    rw [if_pos hinfo]
  · intro n inss
    exact (schedRun_spec n ⟨StreamThread.streamPass streams ins, rest⟩ inss).1

/-- Claim C6, witness: the failing job `c6Job` is drained from the
concrete queue, the analyzer still runs on its partial bytes, and the
next iteration drains the job behind it. -/
theorem c6_witness :
    c6State.mDecoderLoudness = c6Job :: [c6Job2] ∧
    c6Job.readAllFails = true ∧
    (StreamThread.schedIter c6State []).1.mDecoderLoudness = [c6Job2] ∧
    (StreamThread.schedIter c6State []).2 =
      some (StreamThread.runLoudnessJob c6Job) ∧
    (StreamThread.runLoudnessJob c6Job).data = c6Job.dataRead ∧
    (StreamThread.schedRun 1
      (StreamThread.schedIter c6State []).1 []).1.mDecoderLoudness =
      [c6Job2].drop 1 := by
  have h := c6_loudness_job_failure c6State c6Job [c6Job2] [] rfl rfl
  exact ⟨rfl, rfl, h.1, h.2.1, (h.2.2.1 rfl).1, h.2.2.2.2 1 []⟩

/-- Claim C7: every playback request fails with the resource-exhausted
error (`fail("No free sources")`) when the free-voice list is empty —
leaving all state untouched — and when an exception is raised after the
front voice was taken, the voice is pushed onto the back of the free
list and the request rethrows with the active-sound, active-stream and
scheduler sets unchanged. -/
theorem c7_playback_failure :
    ∀ (st : OutputState) (newId fptr : Nat) (cfg : StreamConfig) (d : Decoder)
      (fl : Bool),
      (st.mFreeSources = [] →
        OpenAL_Output.playSound st newId fl = (st, .error .noFreeSources) ∧
        OpenAL_Output.playSound3D st newId fl = (st, .error .noFreeSources) ∧
        OpenAL_Output.streamSound st newId fptr cfg d fl =
          (st, .error .noFreeSources) ∧
        OpenAL_Output.streamSound3D st newId fptr cfg d fl =
          (st, .error .noFreeSources)) ∧
      (∀ (source : Nat) (rest : List Nat), st.mFreeSources = source :: rest →
        OpenAL_Output.playSound st newId true =
          ({ st with mFreeSources := rest ++ [source] }, .error .deviceError) ∧
        OpenAL_Output.playSound3D st newId true =
          ({ st with mFreeSources := rest ++ [source] }, .error .deviceError) ∧
        OpenAL_Output.streamSound st newId fptr cfg d true =
          ({ st with mFreeSources := rest ++ [source] }, .error .deviceError) ∧
        OpenAL_Output.streamSound3D st newId fptr cfg d true =
          ({ st with mFreeSources := rest ++ [source] }, .error .deviceError)) := by
  intro st newId fptr cfg d fl
  obtain ⟨fs, as, astr, ts⟩ := st
  constructor
  · intro h
    simp only at h
    subst h
    exact ⟨rfl, rfl, rfl, rfl⟩
  · intro source rest h
    simp only at h
    subst h
    exact ⟨rfl, rfl, rfl, rfl⟩

/-- Claim C7, witness: the four requests on a concrete empty pool, and
on a concrete two-voice pool with the device throwing after the front
voice was taken. -/
theorem c7_witness :
    c7Empty.mFreeSources = [] ∧
    c7Two.mFreeSources = 1 :: [2] ∧
    OpenAL_Output.playSound c7Empty 60 false = (c7Empty, .error .noFreeSources) ∧
    OpenAL_Output.streamSound c7Empty 60 61 c4Cfg ⟨[]⟩ false =
      (c7Empty, .error .noFreeSources) ∧
    OpenAL_Output.playSound c7Two 60 true =
      ({ c7Two with mFreeSources := [2] ++ [1] }, .error .deviceError) ∧
    OpenAL_Output.streamSound c7Two 60 61 c4Cfg ⟨[]⟩ true =
      ({ c7Two with mFreeSources := [2] ++ [1] }, .error .deviceError) := by
  have h0 := c7_playback_failure c7Empty 60 61 c4Cfg ⟨[]⟩ false
  have h1 := c7_playback_failure c7Two 60 61 c4Cfg ⟨[]⟩ true
  exact ⟨rfl, rfl, (h0.1 rfl).1, (h0.1 rfl).2.2.1,
    (h1.2 1 [2] rfl).1, (h1.2 1 [2] rfl).2.2.1⟩

/-- Claim C10: on a handle whose `mHandle` is already null, the public
query and stop operations are total and benign — the stops return with
every set unchanged, the playing queries return false, and the delay
and offset queries return 0. -/
theorem c10_null_handle_ops :
    ∀ (st : OutputState) (snd : SoundRef) (strm : StreamRef)
      (ps : PlayState) (off doff : Int),
      snd.mHandle = none → strm.mHandle = none →
      OpenAL_Output.stopSound st snd = (st, snd) ∧
      OpenAL_Output.isSoundPlaying snd ps = false ∧
      OpenAL_Output.stopStream st strm = (st, strm) ∧
      OpenAL_Output.getStreamDelay strm off = 0 ∧
      OpenAL_Output.getStreamOffset strm off doff = 0 ∧
      OpenAL_Output.isStreamPlaying strm = false := by
  intro st snd strm ps off doff hs ht
  obtain ⟨sid, shnd⟩ := snd
  obtain ⟨tid, thnd⟩ := strm
  simp only at hs ht
  subst hs ht
  exact ⟨rfl, rfl, rfl, rfl, rfl, rfl⟩

/-- A finished stream exits the refill loop immediately. -/
theorem refillLoop_of_finished (cfg : StreamConfig) (s : StreamState) (q : Nat)
    (h : s.finished = true) : refillLoop cfg s q = (s, q) := by
  rw [refillLoop]
  simp [h]

/-- On a finished stream, `refillQueue` only unqueues processed buffers:
no read happens and the flag stays set. -/
theorem refillQueue_of_finished (cfg : StreamConfig) (s : StreamState) (p : Nat)
    (h : s.finished = true) :
    refillQueue cfg s p =
      ({ s with queue := s.queue.drop p }, (s.queue.drop p).length) := by
  unfold refillQueue
  exact refillLoop_of_finished cfg _ _ h

/-- One pass of the refill loop body queues at most one buffer. -/
theorem refillBody_queue_len (cfg : StreamConfig) (s : StreamState) :
    (refillBody cfg s).queue.length ≤ s.queue.length + 1 := by
  unfold refillBody
  by_cases h1 : (s.decoder.read cfg.bufferSize).1.length < cfg.bufferSize <;>
    by_cases h2 : (s.decoder.read cfg.bufferSize).1.length > 0 <;>
      simp [h1, h2]

/-- Refill-loop invariant: if the queue length is bounded by the
`queued` counter and the counter by the ring capacity, both bounds are
preserved to the end of the loop. -/
theorem refillLoop_len_inv (cfg : StreamConfig) :
    ∀ (n : Nat) (s : StreamState) (q : Nat),
      sNumBuffers - q ≤ n → s.queue.length ≤ q → q ≤ sNumBuffers →
      (refillLoop cfg s q).1.queue.length ≤ (refillLoop cfg s q).2 ∧
      (refillLoop cfg s q).2 ≤ sNumBuffers := by
  intro n
  induction n with
  | zero =>
    intro s q h1 h2 h3
    have hq : ¬ q < sNumBuffers := by omega
    rw [refillLoop, dif_neg (fun hc => hq hc.2)]
    exact ⟨h2, h3⟩
  | succ n ih =>
    intro s q h1 h2 h3
    rw [refillLoop]
    by_cases hc : s.finished = false ∧ q < sNumBuffers
    · rw [dif_pos hc]
      refine ih _ _ (by omega) ?_ (by omega)
      calc (refillBody cfg s).queue.length ≤ s.queue.length + 1 :=
            refillBody_queue_len cfg s
        _ ≤ q + 1 := by omega
    · rw [dif_neg hc]
      exact ⟨h2, h3⟩

/-- `refillQueue` keeps the queued-buffer count within the ring
capacity. -/
theorem refillQueue_len (cfg : StreamConfig) (s : StreamState) (p : Nat)
    (h : s.queue.length ≤ sNumBuffers) :
    (refillQueue cfg s p).1.queue.length ≤ sNumBuffers := by
  unfold refillQueue
  have hlen : (s.queue.drop p).length ≤ sNumBuffers := by
    rw [List.length_drop]
    omega
  have hinv := refillLoop_len_inv cfg sNumBuffers
    { s with queue := s.queue.drop p } (s.queue.drop p).length
    (by omega) le_rfl hlen
  exact le_trans hinv.1 hinv.2

/-- Unfolding of `process` on the non-throwing path. -/
theorem process_false_eq (cfg : StreamConfig) (s : StreamState) (p : Nat) :
    process cfg s p false =
      (let r1 := refillQueue cfg s p
       let s2 : StreamState :=
         if r1.2 > 0 ∧ ¬(r1.1.playState = .playing ∨ r1.1.playState = .paused) then
           { (refillQueue cfg r1.1 0).1 with playState := .playing }
         else r1.1
       (s2, !s2.finished)) := rfl

/-- `process` keeps the queued-buffer count within the ring capacity. -/
theorem process_queue_len (cfg : StreamConfig) (s : StreamState) (p : Nat)
    (df : Bool) (h : s.queue.length ≤ sNumBuffers) :
    (process cfg s p df).1.queue.length ≤ sNumBuffers := by
  cases df
  · rw [process_false_eq]
    dsimp only
    by_cases hc : (refillQueue cfg s p).2 > 0 ∧
        ¬((refillQueue cfg s p).1.playState = .playing ∨
          (refillQueue cfg s p).1.playState = .paused)
    · rw [if_pos hc]
      exact refillQueue_len cfg (refillQueue cfg s p).1 0 (refillQueue_len cfg s p h)
    · rw [if_neg hc]
      exact refillQueue_len cfg s p h
  · exact h

/-- Once finished, `process` keeps the flag set and never touches the
decoder again. -/
theorem process_of_finished (cfg : StreamConfig) (s : StreamState) (p : Nat)
    (df : Bool) (h : s.finished = true) :
    (process cfg s p df).1.finished = true ∧
    (process cfg s p df).1.decoder = s.decoder := by
  cases df
  · rw [process_false_eq]
    dsimp only
    have hq := refillQueue_of_finished cfg s p h
    by_cases hc : (refillQueue cfg s p).2 > 0 ∧
        ¬((refillQueue cfg s p).1.playState = .playing ∨
          (refillQueue cfg s p).1.playState = .paused)
    · rw [if_pos hc]
      have h1 : (refillQueue cfg s p).1.finished = true := by rw [hq]; exact h
      have hq2 := refillQueue_of_finished cfg (refillQueue cfg s p).1 0 h1
      constructor
      · show ({ (refillQueue cfg (refillQueue cfg s p).1 0).1 with
            playState := .playing }).finished = true
        rw [hq2]
        exact h1
      · show ({ (refillQueue cfg (refillQueue cfg s p).1 0).1 with
            playState := .playing }).decoder = s.decoder
        rw [hq2, hq]
    · rw [if_neg hc, hq]
      exact ⟨h, rfl⟩
  · exact ⟨rfl, rfl⟩

/-- Per-call form of the feeder invariants. -/
theorem applyCall_queue_len (cfg : StreamConfig) (s : StreamState)
    (c : FeederCall) (h : s.queue.length ≤ sNumBuffers) :
    (applyCall cfg s c).queue.length ≤ sNumBuffers := by
  cases c with
  | refill p => exact refillQueue_len cfg s p h
  | advance p df => exact process_queue_len cfg s p df h

/-- Per-call form of the finished-freeze invariant. -/
theorem applyCall_of_finished (cfg : StreamConfig) (s : StreamState)
    (c : FeederCall) (h : s.finished = true) :
    (applyCall cfg s c).finished = true ∧
    (applyCall cfg s c).decoder = s.decoder := by
  cases c with
  | refill p =>
    show (refillQueue cfg s p).1.finished = true ∧
      (refillQueue cfg s p).1.decoder = s.decoder
    rw [refillQueue_of_finished cfg s p h]
    exact ⟨h, rfl⟩
  | advance p df => exact process_of_finished cfg s p df h

/-- Claim C3: a short decoder read during the refill loop pads the tail
of the buffer with the silence value, enqueues the partial buffer on
the voice iff it is nonempty, and sets `finished`, after which no
`refillQueue` call ever reads from the decoder again. -/
theorem c3_short_read :
    ∀ (cfg : StreamConfig) (s : StreamState),
      s.finished = false →
      (s.decoder.read cfg.bufferSize).1.length < cfg.bufferSize →
      ((refillBody cfg s).finished = true ∧
       (0 < (s.decoder.read cfg.bufferSize).1.length →
         (refillBody cfg s).queue = s.queue ++
           [(s.decoder.read cfg.bufferSize).1 ++
             List.replicate
               (cfg.bufferSize - (s.decoder.read cfg.bufferSize).1.length)
               cfg.silence]) ∧
       ((s.decoder.read cfg.bufferSize).1.length = 0 →
         (refillBody cfg s).queue = s.queue) ∧
       (∀ (s2 : StreamState) (p : Nat), s2.finished = true →
         (refillQueue cfg s2 p).1.decoder = s2.decoder ∧
         (refillQueue cfg s2 p).1.finished = true)) := by
  intro cfg s hfin hshort
  refine ⟨?_, ?_, ?_, ?_⟩
  · unfold refillBody
    by_cases h2 : (s.decoder.read cfg.bufferSize).1.length > 0 <;>
      simp [hshort, h2]
  · intro hpos
    unfold refillBody
    simp [hshort, hpos]
  · intro hzero
    unfold refillBody
    simp [hshort, hzero]
    split <;> rfl
  · intro s2 p h2
    rw [refillQueue_of_finished cfg s2 p h2]
    exact ⟨rfl, h2⟩

/-- Claim C3, witness: a fresh feeder with four-byte buffers whose
decoder holds only two bytes — the short read queues the zero-padded
partial buffer and finishes; a finished feeder's `refillQueue` leaves
the decoder untouched. -/
theorem c3_witness :
    c3State.finished = false ∧
    (c3State.decoder.read c3Cfg.bufferSize).1.length < c3Cfg.bufferSize ∧
    (refillBody c3Cfg c3State).finished = true ∧
    (refillBody c3Cfg c3State).queue = c3State.queue ++
      [(c3State.decoder.read c3Cfg.bufferSize).1 ++
        List.replicate
          (c3Cfg.bufferSize - (c3State.decoder.read c3Cfg.bufferSize).1.length)
          c3Cfg.silence] ∧
    (refillQueue c3Cfg c4State 0).1.decoder = c4State.decoder ∧
    (refillQueue c3Cfg c4State 0).1.finished = true := by
  have h := c3_short_read c3Cfg c3State rfl (by decide)
  exact ⟨rfl, by decide, h.1, h.2.1 (by decide),
    (h.2.2.2 c4State 0 rfl).1, (h.2.2.2 c4State 0 rfl).2⟩

/-- Claim C4: starting from any state with at most six queued buffers,
every sequence of `refillQueue`/`process` calls keeps the queued-buffer
count in `[0, 6]`; once `finished` is true it stays true and the
decoder is never read again. -/
theorem c4_feeder_invariants :
    ∀ (cfg : StreamConfig) (calls : List FeederCall) (s : StreamState),
      s.queue.length ≤ sNumBuffers →
      (applyCalls cfg s calls).queue.length ≤ sNumBuffers ∧
      (s.finished = true →
        (applyCalls cfg s calls).finished = true ∧
        (applyCalls cfg s calls).decoder = s.decoder) := by
  intro cfg calls
  induction calls with
  | nil => exact fun s h => ⟨h, fun hf => ⟨hf, rfl⟩⟩
  | cons c cs ih =>
    intro s h
    have h1 := applyCall_queue_len cfg s c h
    have r := ih (applyCall cfg s c) h1
    refine ⟨r.1, fun hf => ?_⟩
    have hc := applyCall_of_finished cfg s c hf
    have r2 := r.2 hc.1
    refine ⟨r2.1, ?_⟩
    show (applyCalls cfg (applyCall cfg s c) cs).decoder = s.decoder
    rw [r2.2, hc.2]

/-- Claim C4, witness: the invariants after a concrete
`refillQueue`/`process` sequence on a finished feeder with one queued
buffer. -/
theorem c4_witness :
    c4State.queue.length ≤ sNumBuffers ∧
    (applyCalls c4Cfg c4State
      [FeederCall.refill 0, FeederCall.advance 0 false]).queue.length ≤ sNumBuffers ∧
    (applyCalls c4Cfg c4State
      [FeederCall.refill 0, FeederCall.advance 0 false]).finished = true ∧
    (applyCalls c4Cfg c4State
      [FeederCall.refill 0, FeederCall.advance 0 false]).decoder = c4State.decoder := by
  have h := c4_feeder_invariants c4Cfg
    [FeederCall.refill 0, FeederCall.advance 0 false] c4State (by decide)
  exact ⟨by decide, h.1, (h.2 rfl).1, (h.2 rfl).2⟩

/-- Claim C10, witness: the null-handle operations at a concrete output
state, handle pair, play state and offsets. -/
theorem c10_witness :
    c10Snd.mHandle = none ∧ c10Strm.mHandle = none ∧
    (OpenAL_Output.stopSound c10St c10Snd = (c10St, c10Snd) ∧
     OpenAL_Output.isSoundPlaying c10Snd PlayState.playing = false ∧
     OpenAL_Output.stopStream c10St c10Strm = (c10St, c10Strm) ∧
     OpenAL_Output.getStreamDelay c10Strm 3 = 0 ∧
     OpenAL_Output.getStreamOffset c10Strm 3 5 = 0 ∧
     OpenAL_Output.isStreamPlaying c10Strm = false) :=
  ⟨rfl, rfl, c10_null_handle_ops c10St c10Snd c10Strm .playing 3 5 rfl rfl⟩

end MWSound
